import Mathlib

/-!
Shallow embedding of the MTC (MIDI Time Code) generator class from
`src/unnamed/part_000` (the `MTCGenerator` JavaScript class exported as the
module `mtc-generator`).

The generator's mutable fields (`running`, `frameRate`, `hours`, `minutes`,
`seconds`, `frames`, `quarterFrame`, `timer`) become a Lean structure.
The frame rate is a rational number so that the literal `29.97` is exact.
Each method becomes a function from the state to a new state together with
the list of MIDI events it emits (`output.sendMessage(bytes)` and
`output.closePort()` calls, in order).
-/

namespace MTC

/-- One observable interaction with the MIDI output port: either a
`sendMessage` with a list of byte values, or a `closePort` call. -/
inductive MidiEvent where
  | sendMessage (bytes : List ℕ)
  | closePort
  deriving DecidableEq

/-- The mutable state of an `MTCGenerator` instance: the `running` flag, the
configured frame rate, the four timecode fields, the quarter-frame cursor
(`this.quarterFrame` in the source), and the interval timer handle
(`some interval` while a periodic tick is scheduled, `none` otherwise). -/
structure MTCGenerator where
  running : Bool
  frameRate : ℚ
  hours : ℕ
  minutes : ℕ
  seconds : ℕ
  frames : ℕ
  quarterFrame : ℕ
  timer : Option ℤ
  deriving DecidableEq

/-- State established by the constructor once the MIDI port has been found
and opened: stopped, default frame rate 30, timecode 00:00:00:00, cursor 0,
no timer. -/
def initState : MTCGenerator :=
  ⟨false, 30, 0, 0, 0, 0, 0, none⟩

/-- Source `toBCD(value)`: `((Math.floor(value / 10) << 4) | (value % 10)) & 0x7F`. -/
def toBCD (value : ℕ) : ℕ :=
  ((value / 10) <<< 4 ||| (value % 10)) &&& 0x7F

/-- The rate code computed inline in `sendFullFrame`:
`frameRate === 24 ? 0 : frameRate === 25 ? 1 : frameRate === 29.97 ? 2 : 3`. -/
def rateCode (r : ℚ) : ℕ :=
  if r = 24 then 0 else if r = 25 then 1 else if r = 2997 / 100 then 2 else 3

/-- The ten bytes of the Full Frame SysEx message built in `sendFullFrame`. -/
def fullFrameBytes (s : MTCGenerator) : List ℕ :=
  [0xF0, 0x7F, 0x7F, 0x01, 0x01,
   toBCD s.hours ||| (rateCode s.frameRate <<< 5),
   toBCD s.minutes,
   toBCD s.seconds,
   toBCD s.frames,
   0xF7]

/-- Source `sendFullFrame()`: emits the full-frame SysEx message; the state is
unchanged. -/
def sendFullFrame (s : MTCGenerator) : List MidiEvent :=
  [MidiEvent.sendMessage (fullFrameBytes s)]

/-- The `pieces` array built in `sendQuarterFrame`: binary low/high nibbles of
frames, seconds, minutes, hours, in that order. -/
def pieces (s : MTCGenerator) : List ℕ :=
  [s.frames &&& 0x0F,
   (s.frames &&& 0xF0) >>> 4,
   s.seconds &&& 0x0F,
   (s.seconds &&& 0xF0) >>> 4,
   s.minutes &&& 0x0F,
   (s.minutes &&& 0xF0) >>> 4,
   s.hours &&& 0x0F,
   (s.hours &&& 0xF0) >>> 4]

/-- The frame-advance cascade inlined at the end of `sendQuarterFrame`:
`this.frames++` followed by the nested overflow checks against
`frameRate`, 60, 60 and 24. -/
def advanceFrame (s : MTCGenerator) : MTCGenerator :=
  let f := s.frames + 1
  if s.frameRate ≤ (f : ℚ) then
    let sec := s.seconds + 1
    if 60 ≤ sec then
      let min := s.minutes + 1
      if 60 ≤ min then
        let hr := s.hours + 1
        if 24 ≤ hr then
          { s with frames := 0, seconds := 0, minutes := 0, hours := 0 }
        else
          { s with frames := 0, seconds := 0, minutes := 0, hours := hr }
      else
        { s with frames := 0, seconds := 0, minutes := min }
    else
      { s with frames := 0, seconds := sec }
  else
    { s with frames := f }

/-- Source `sendQuarterFrame()`: sends `[0xF1, (quarterFrame << 4) | pieces[quarterFrame]]`,
advances the cursor modulo 8, and when the cursor wraps to 0 runs the
frame-advance cascade. -/
def sendQuarterFrame (s : MTCGenerator) : MTCGenerator × List MidiEvent :=
  let msg : List ℕ := [0xF1, (s.quarterFrame <<< 4) ||| (pieces s).getD s.quarterFrame 0]
  let s1 := { s with quarterFrame := (s.quarterFrame + 1) % 8 }
  let s2 := if s1.quarterFrame = 0 then advanceFrame s1 else s1
  (s2, [MidiEvent.sendMessage msg])

/-- The state transition of one tick (the scheduled `sendQuarterFrame` call). -/
def tickState (s : MTCGenerator) : MTCGenerator :=
  (sendQuarterFrame s).1

/-- Source `start()`: no-op when running; otherwise marks running, sends one
full frame, and schedules the tick at `Math.floor(1000 / (frameRate * 4))`
milliseconds. -/
def start (s : MTCGenerator) : MTCGenerator × List MidiEvent :=
  if s.running then (s, [])
  else
    let s1 := { s with running := true }
    let interval : ℤ := ⌊(1000 : ℚ) / (s.frameRate * 4)⌋
    ({ s1 with timer := some interval }, sendFullFrame s1)

/-- Source `stop()`: no-op when not running; otherwise clears the running flag
and cancels the interval timer. -/
def stop (s : MTCGenerator) : MTCGenerator × List MidiEvent :=
  if s.running then ({ s with running := false, timer := none }, []) else (s, [])

/-- Source `setPosition(hours, minutes, seconds, frames)`: overwrites the
timecode, resets the cursor to 0, and when running immediately sends a full
frame at the new position. -/
def setPosition (s : MTCGenerator) (h m sec f : ℕ) : MTCGenerator × List MidiEvent :=
  let s1 := { s with hours := h, minutes := m, seconds := sec, frames := f, quarterFrame := 0 }
  (s1, if s1.running then sendFullFrame s1 else [])

/-- The error thrown by `setFrameRate` on a rate outside {24, 25, 29.97, 30}. -/
inductive MTCError where
  | invalidFrameRate
  deriving DecidableEq

/-- Source `setFrameRate(rate)`: validates the rate against the list
`[24, 25, 29.97, 30]` and throws otherwise, leaving the state unchanged. -/
def setFrameRate (s : MTCGenerator) (r : ℚ) : Except MTCError MTCGenerator :=
  if r = 24 ∨ r = 25 ∨ r = 2997 / 100 ∨ r = 30 then
    Except.ok { s with frameRate := r }
  else
    Except.error MTCError.invalidFrameRate

/-- Source `close()`: calls `stop()` and then unconditionally
`output.closePort()`. -/
def close (s : MTCGenerator) : MTCGenerator × List MidiEvent :=
  let p := stop s
  (p.1, p.2 ++ [MidiEvent.closePort])

/-- Whether the rate is one of the four frame rates the source accepts. -/
def RateValid (r : ℚ) : Prop :=
  r = 24 ∨ r = 25 ∨ r = 2997 / 100 ∨ r = 30

/-- The number of frames counted per second at rate `r`: the integer threshold
of the source's `frames >= frameRate` comparison, which for the four valid
rates is 24, 25, 30 (for 29.97) and 30. -/
def frameCount (r : ℚ) : ℕ :=
  (⌈r⌉).toNat

/-- The timecode quadruple (hours, minutes, seconds, frames) of a state. -/
def timecodeOf (s : MTCGenerator) : ℕ × ℕ × ℕ × ℕ :=
  (s.hours, s.minutes, s.seconds, s.frames)

/-- Normalization invariant from the spec's data model: each timecode field
within range, the cursor within 0..7, and a valid frame rate. -/
def Inv (s : MTCGenerator) : Prop :=
  s.hours < 24 ∧ s.minutes < 60 ∧ s.seconds < 60 ∧
    s.frames < frameCount s.frameRate ∧ s.quarterFrame < 8 ∧ RateValid s.frameRate

/-- Spec-side rate code mapping, following the spec's words: 24 maps to 0,
25 to 1, 29.97 to 2 and 30 to 3 (defined only on the four valid rates;
0 elsewhere). -/
def rateCodeSpec (r : ℚ) : ℕ :=
  if r = 24 then 0
  else if r = 25 then 1
  else if r = 2997 / 100 then 2
  else if r = 30 then 3
  else 0

/-- Spec-side nibble table for quarter-frame piece `k`: the binary low or
high nibble of frames, seconds, minutes, hours, per the fixed table. -/
def nibbleSpec (s : MTCGenerator) : ℕ → ℕ
  | 0 => s.frames % 16
  | 1 => s.frames / 16
  | 2 => s.seconds % 16
  | 3 => s.seconds / 16
  | 4 => s.minutes % 16
  | 5 => s.minutes / 16
  | 6 => s.hours % 16
  | 7 => s.hours / 16
  | _ => 0

/-- Spec-side description of one frame advance, following the spec's words:
increment frames; on overflow reset frames to 0 and cascade through
seconds, minutes, hours with moduli 60, 60, 24. The threshold `fc` is the
frame count per second (treating 29.97 as 30 for counting). -/
def advanceSpec (fc h m s f : ℕ) : ℕ × ℕ × ℕ × ℕ :=
  if f + 1 < fc then (h, m, s, f + 1)
  else if s + 1 < 60 then (h, m, s + 1, 0)
  else if m + 1 < 60 then (h, m + 1, 0, 0)
  else ((h + 1) % 24, 0, 0, 0)

/-- Whether a MIDI event is a `closePort` call. -/
def isClosePort : MidiEvent → Bool
  | MidiEvent.closePort => true
  | _ => false

/-- How many times a list of MIDI events releases the port. -/
def releaseCount (es : List MidiEvent) : ℕ :=
  (es.filter isClosePort).length


lemma frameCount_24 : frameCount 24 = 24 := by
  have h : (⌈(24 : ℚ)⌉ : ℤ) = 24 := by
    rw [Int.ceil_eq_iff]
    norm_num
  simp [frameCount, h]

lemma frameCount_25 : frameCount 25 = 25 := by
  have h : (⌈(25 : ℚ)⌉ : ℤ) = 25 := by
    rw [Int.ceil_eq_iff]
    norm_num
  simp [frameCount, h]

lemma frameCount_2997 : frameCount (2997 / 100) = 30 := by
  have h : (⌈(2997 / 100 : ℚ)⌉ : ℤ) = 30 := by
    rw [Int.ceil_eq_iff]
    norm_num
  simp [frameCount, h]

lemma frameCount_30 : frameCount 30 = 30 := by
  have h : (⌈(30 : ℚ)⌉ : ℤ) = 30 := by
    rw [Int.ceil_eq_iff]
    norm_num
  simp [frameCount, h]

lemma frameCount_pos (r : ℚ) (hr : RateValid r) : 0 < frameCount r := by
  rcases hr with h | h | h | h <;> subst h
  · rw [frameCount_24]; omega
  · rw [frameCount_25]; omega
  · rw [frameCount_2997]; omega
  · rw [frameCount_30]; omega

lemma rate_le_cast_iff (r : ℚ) (hr : RateValid r) (n : ℕ) :
    r ≤ (n : ℚ) ↔ frameCount r ≤ n := by
  rcases hr with h | h | h | h <;> subst h
  · rw [frameCount_24]
    exact_mod_cast Iff.rfl
  · rw [frameCount_25]
    exact_mod_cast Iff.rfl
  · rw [frameCount_2997]
    constructor
    · intro h
      by_contra hn
      push_neg at hn
      have : (n : ℚ) ≤ 29 := by exact_mod_cast Nat.le_of_lt_succ hn
      linarith
    · intro h
      have : (30 : ℚ) ≤ (n : ℚ) := by exact_mod_cast h
      linarith
  · rw [frameCount_30]
    exact_mod_cast Iff.rfl

lemma nibble_split (n : ℕ) (h : n < 64) :
    n &&& 0x0F = n % 16 ∧ (n &&& 0xF0) >>> 4 = n / 16 := by
  revert h
  revert n
  decide

lemma advanceFrame_quarterFrame (s : MTCGenerator) :
    (advanceFrame s).quarterFrame = s.quarterFrame := by
  simp only [advanceFrame]
  split_ifs <;> rfl

lemma timecode_advanceFrame (s : MTCGenerator) (hr : RateValid s.frameRate)
    (hh : s.hours < 24) :
    timecodeOf (advanceFrame s) =
      advanceSpec (frameCount s.frameRate) s.hours s.minutes s.seconds s.frames := by
  have hkey := rate_le_cast_iff s.frameRate hr (s.frames + 1)
  by_cases h1 : frameCount s.frameRate ≤ s.frames + 1
  · have h1q : s.frameRate ≤ ((s.frames + 1 : ℕ) : ℚ) := hkey.mpr h1
    by_cases h2 : 60 ≤ s.seconds + 1
    · by_cases h3 : 60 ≤ s.minutes + 1
      · by_cases h4 : 24 ≤ s.hours + 1
        · have hmod : (s.hours + 1) % 24 = 0 := by omega
          simp only [advanceFrame, advanceSpec, timecodeOf, if_pos h1q, if_pos h2,
            if_pos h3, if_pos h4, hmod,
            if_neg (by omega : ¬ s.frames + 1 < frameCount s.frameRate),
            if_neg (by omega : ¬ s.seconds + 1 < 60),
            if_neg (by omega : ¬ s.minutes + 1 < 60)]
        · have hmod : (s.hours + 1) % 24 = s.hours + 1 := Nat.mod_eq_of_lt (by omega)
          simp only [advanceFrame, advanceSpec, timecodeOf, if_pos h1q, if_pos h2,
            if_pos h3, if_neg h4, hmod,
            if_neg (by omega : ¬ s.frames + 1 < frameCount s.frameRate),
            if_neg (by omega : ¬ s.seconds + 1 < 60),
            if_neg (by omega : ¬ s.minutes + 1 < 60)]
      · simp only [advanceFrame, advanceSpec, timecodeOf, if_pos h1q, if_pos h2,
          if_neg h3,
          if_neg (by omega : ¬ s.frames + 1 < frameCount s.frameRate),
          if_neg (by omega : ¬ s.seconds + 1 < 60),
          if_pos (by omega : s.minutes + 1 < 60)]
    · simp only [advanceFrame, advanceSpec, timecodeOf, if_pos h1q, if_neg h2,
        if_neg (by omega : ¬ s.frames + 1 < frameCount s.frameRate),
        if_pos (by omega : s.seconds + 1 < 60)]
  · have h1q : ¬ s.frameRate ≤ ((s.frames + 1 : ℕ) : ℚ) := fun hx => h1 (hkey.mp hx)
    simp only [advanceFrame, advanceSpec, timecodeOf, if_neg h1q,
      if_pos (by omega : s.frames + 1 < frameCount s.frameRate)]

lemma tickState_step (s : MTCGenerator) (k : ℕ) (hk : s.quarterFrame = k) (h7 : k + 1 < 8) :
    tickState s = { s with quarterFrame := k + 1 } := by
  simp only [tickState, sendQuarterFrame, hk]
  rw [Nat.mod_eq_of_lt h7]
  simp [Nat.succ_ne_zero]

lemma tickState_wrap (s : MTCGenerator) (hk : s.quarterFrame = 7) :
    tickState s = advanceFrame { s with quarterFrame := 0 } := by
  simp [tickState, sendQuarterFrame, hk]

lemma iterate_cursor (run : Bool) (rate : ℚ) (h m sec f : ℕ) (tm : Option ℤ) :
    ∀ k, k ≤ 7 →
      tickState^[k] ⟨run, rate, h, m, sec, f, 0, tm⟩ = ⟨run, rate, h, m, sec, f, k, tm⟩ := by
  intro k hk
  induction k with
  | zero => rfl
  | succ n ih =>
      rw [Function.iterate_succ_apply', ih (by omega)]
      exact tickState_step _ n rfl (by omega)

lemma iterate_eight (run : Bool) (rate : ℚ) (h m sec f : ℕ) (tm : Option ℤ) :
    tickState^[8] ⟨run, rate, h, m, sec, f, 0, tm⟩ =
      advanceFrame ⟨run, rate, h, m, sec, f, 0, tm⟩ := by
  rw [show (8 : ℕ) = 7 + 1 from rfl, Function.iterate_succ_apply',
    iterate_cursor run rate h m sec f tm 7 (by omega)]
  exact tickState_wrap _ rfl

lemma Inv_advanceFrame (s : MTCGenerator) (h : Inv s) : Inv (advanceFrame s) := by
  obtain ⟨hh, hm, hs, hf, hq, hr⟩ := h
  have hkey := rate_le_cast_iff s.frameRate hr (s.frames + 1)
  have hpos := frameCount_pos s.frameRate hr
  unfold Inv
  by_cases h1 : s.frameRate ≤ ((s.frames + 1 : ℕ) : ℚ)
  · by_cases h2 : 60 ≤ s.seconds + 1
    · by_cases h3 : 60 ≤ s.minutes + 1
      · by_cases h4 : 24 ≤ s.hours + 1
        · simp only [advanceFrame, if_pos h1, if_pos h2, if_pos h3, if_pos h4]
          exact ⟨by omega, by omega, by omega, by omega, hq, hr⟩
        · simp only [advanceFrame, if_pos h1, if_pos h2, if_pos h3, if_neg h4]
          exact ⟨by omega, by omega, by omega, by omega, hq, hr⟩
      · simp only [advanceFrame, if_pos h1, if_pos h2, if_neg h3]
        exact ⟨by omega, by omega, by omega, by omega, hq, hr⟩
    · simp only [advanceFrame, if_pos h1, if_neg h2]
      exact ⟨by omega, by omega, by omega, by omega, hq, hr⟩
  · have : s.frames + 1 < frameCount s.frameRate := by
      rcases Nat.lt_or_ge (s.frames + 1) (frameCount s.frameRate) with hlt | hge
      · exact hlt
      · exact absurd (hkey.mpr hge) h1
    simp only [advanceFrame, if_neg h1]
    exact ⟨by omega, by omega, by omega, by omega, hq, hr⟩


/-- C1: for every normalized timecode and valid frame rate, `sendFullFrame`
emits exactly the 10-byte SysEx message with BCD fields and the rate code
(24 to 0, 25 to 1, 29.97 to 2, 30 to 3) in bits 5-6 of the hour byte. -/
theorem c1_sendFullFrame_encoding (st : MTCGenerator)
    (hh : st.hours ≤ 23) (hm : st.minutes ≤ 59) (hs : st.seconds ≤ 59)
    (hr : RateValid st.frameRate) (hf : st.frames < frameCount st.frameRate) :
    sendFullFrame st =
      [MidiEvent.sendMessage
        [0xF0, 0x7F, 0x7F, 0x01, 0x01,
         toBCD st.hours ||| (rateCodeSpec st.frameRate <<< 5),
         toBCD st.minutes, toBCD st.seconds, toBCD st.frames, 0xF7]] := by
  rcases hr with h | h | h | h <;>
    rw [sendFullFrame, fullFrameBytes, h] <;>
    norm_num [rateCode, rateCodeSpec]

/-- Witness for C1 at hours 1, minutes 2, seconds 3, frames 4, rate 30: the
bytes are F0 7F 7F 01 01 61 02 03 04 F7. -/
theorem c1_sendFullFrame_encoding_witness :
    sendFullFrame ⟨false, 30, 1, 2, 3, 4, 0, none⟩ =
      [MidiEvent.sendMessage
        [0xF0, 0x7F, 0x7F, 0x01, 0x01,
         toBCD 1 ||| (rateCodeSpec 30 <<< 5),
         toBCD 2, toBCD 3, toBCD 4, 0xF7]] ∧
    sendFullFrame ⟨false, 30, 1, 2, 3, 4, 0, none⟩ =
      [MidiEvent.sendMessage [0xF0, 0x7F, 0x7F, 0x01, 0x01, 0x61, 0x02, 0x03, 0x04, 0xF7]] := by
  constructor
  · exact c1_sendFullFrame_encoding ⟨false, 30, 1, 2, 3, 4, 0, none⟩ (by decide) (by decide)
      (by decide) (Or.inr (Or.inr (Or.inr rfl)))
      (by show (4 : ℕ) < frameCount 30; rw [frameCount_30]; omega)
  · have h3 : rateCode 30 = 3 := by norm_num [rateCode]
    simp only [sendFullFrame, fullFrameBytes, h3]
    decide

/-- C2: with a normalized timecode and cursor k in 0..7, `sendQuarterFrame`
sends exactly the two bytes 0xF1 and (k shifted left 4) bitwise-or the
nibble from the fixed table (low/high nibbles of frames, seconds, minutes,
hours); the message, in particular piece 7, carries no frame-rate bits, so
it is independent of the configured frame rate. -/
theorem c2_sendQuarterFrame_piece (st : MTCGenerator) (hq : st.quarterFrame ≤ 7)
    (hh : st.hours < 24) (hm : st.minutes < 60) (hs : st.seconds < 60) (hf : st.frames < 60) :
    (sendQuarterFrame st).2 =
      [MidiEvent.sendMessage
        [0xF1, (st.quarterFrame <<< 4) ||| nibbleSpec st st.quarterFrame]] ∧
    (∀ r : ℚ, (sendQuarterFrame { st with frameRate := r }).2 = (sendQuarterFrame st).2) := by
  obtain ⟨run, rate, h, m, sec, f, q, tm⟩ := st
  dsimp only at hq hh hm hs hf ⊢
  constructor
  · have hF := nibble_split f (by omega)
    have hS := nibble_split sec (by omega)
    have hM := nibble_split m (by omega)
    have hH := nibble_split h (by omega)
    interval_cases q <;>
      simp [sendQuarterFrame, pieces, nibbleSpec, hF.1, hF.2, hS.1, hS.2,
        hM.1, hM.2, hH.1, hH.2]
  · intro r
    simp [sendQuarterFrame, pieces]

/-- Witness for C2 at cursor 7, hours 17: the piece byte is 0x71 and does not
depend on the frame rate. -/
theorem c2_sendQuarterFrame_piece_witness :
    (sendQuarterFrame ⟨true, 30, 17, 2, 3, 4, 7, some 8⟩).2 =
      [MidiEvent.sendMessage
        [0xF1, (7 <<< 4) ||| nibbleSpec ⟨true, 30, 17, 2, 3, 4, 7, some 8⟩ 7]] ∧
    (sendQuarterFrame ⟨true, 25, 17, 2, 3, 4, 7, some 8⟩).2 =
      (sendQuarterFrame ⟨true, 30, 17, 2, 3, 4, 7, some 8⟩).2 := by
  have h := c2_sendQuarterFrame_piece ⟨true, 30, 17, 2, 3, 4, 7, some 8⟩
    (by decide) (by decide) (by decide) (by decide) (by decide)
  exact ⟨h.1, h.2 25⟩

/-- C3: from cursor 0, eight consecutive ticks take the cursor through
0,1,...,7 and back to 0; the timecode is unchanged by the first seven ticks
and advanced by exactly one frame on the eighth, where the advance
increments frames and on overflow (frames reaching the per-second frame
count, treating 29.97 as 30) cascades through seconds, minutes, hours with
moduli 60, 60, 24; from 23:59:59:(frameCount-1) one advance yields 0:0:0:0. -/
theorem c3_quarter_frame_cycle (st : MTCGenerator) (hq : st.quarterFrame = 0)
    (hr : RateValid st.frameRate) (hh : st.hours < 24) (hm : st.minutes < 60)
    (hs : st.seconds < 60) (hf : st.frames < frameCount st.frameRate) :
    (∀ i, i ≤ 8 → (tickState^[i] st).quarterFrame = i % 8) ∧
    (∀ i, i ≤ 7 → timecodeOf (tickState^[i] st) = timecodeOf st) ∧
    timecodeOf (tickState^[8] st) =
      advanceSpec (frameCount st.frameRate) st.hours st.minutes st.seconds st.frames ∧
    (st.hours = 23 → st.minutes = 59 → st.seconds = 59 →
      st.frames = frameCount st.frameRate - 1 →
      timecodeOf (tickState^[8] st) = (0, 0, 0, 0)) := by
  obtain ⟨run, rate, h, m, sec, f, q, tm⟩ := st
  dsimp only at hq hr hh hm hs hf ⊢
  subst hq
  have key8 := iterate_eight run rate h m sec f tm
  refine ⟨?_, ?_, ?_, ?_⟩
  · intro i hi
    rcases Nat.lt_or_ge i 8 with hlt | hge
    · rw [iterate_cursor run rate h m sec f tm i (by omega)]
      show i = i % 8
      omega
    · have h8 : i = 8 := by omega
      subst h8
      rw [key8, advanceFrame_quarterFrame]
  · intro i hi
    rw [iterate_cursor run rate h m sec f tm i hi]
    rfl
  · rw [key8]
    exact timecode_advanceFrame _ hr hh
  · intro h23 hm59 hs59 hfr
    subst h23
    subst hm59
    subst hs59
    subst hfr
    rw [key8, timecode_advanceFrame _ hr (by show (23 : ℕ) < 24; omega)]
    have hpos := frameCount_pos rate hr
    dsimp only
    rw [advanceSpec, if_neg (by omega), if_neg (by omega), if_neg (by omega)]

/-- Witness for C3: starting at 23:59:59:29 at 30 fps with cursor 0, the
eighth tick wraps the timecode to 0:0:0:0 and the cursor back to 0. -/
theorem c3_quarter_frame_cycle_witness :
    timecodeOf (tickState^[8] (⟨true, 30, 23, 59, 59, 29, 0, some 8⟩ : MTCGenerator)) =
        (0, 0, 0, 0) ∧
    (tickState^[8] (⟨true, 30, 23, 59, 59, 29, 0, some 8⟩ : MTCGenerator)).quarterFrame = 0 := by
  have h := c3_quarter_frame_cycle ⟨true, 30, 23, 59, 59, 29, 0, some 8⟩ rfl
    (Or.inr (Or.inr (Or.inr rfl))) (by decide) (by decide) (by decide)
    (by show (29 : ℕ) < frameCount 30; rw [frameCount_30]; omega)
  refine ⟨h.2.2.2 rfl rfl rfl ?_, h.1 8 (by omega)⟩
  show (29 : ℕ) = frameCount 30 - 1
  rw [frameCount_30]

/-- Counterexample to C4 as stated: the state 0:0:0:29 at 30 fps satisfies
the normalization invariant, yet `setFrameRate 24` succeeds and leaves the
frames field at 29, outside 0..23, so the invariant does not survive a
valid rate change. -/
theorem c4_counterexample :
    Inv ⟨false, 30, 0, 0, 0, 29, 0, none⟩ ∧
    setFrameRate ⟨false, 30, 0, 0, 0, 29, 0, none⟩ 24 =
      Except.ok ⟨false, 24, 0, 0, 0, 29, 0, none⟩ ∧
    ¬ Inv ⟨false, 24, 0, 0, 0, 29, 0, none⟩ := by
  refine ⟨⟨by decide, by decide, by decide, ?_, by decide, Or.inr (Or.inr (Or.inr rfl))⟩, ?_, ?_⟩
  · show (29 : ℕ) < frameCount 30
    rw [frameCount_30]
    omega
  · have hcond : (24 : ℚ) = 24 ∨ (24 : ℚ) = 25 ∨ (24 : ℚ) = 2997 / 100 ∨ (24 : ℚ) = 30 :=
      Or.inl rfl
    unfold setFrameRate
    rw [if_pos hcond]
  · intro hInv
    obtain ⟨-, -, -, hfr, -, -⟩ := hInv
    rw [show frameCount (⟨false, 24, 0, 0, 0, 29, 0, none⟩ : MTCGenerator).frameRate = 24
      from frameCount_24] at hfr
    have h29 : (29 : ℕ) < 24 := hfr
    omega

/-- C4 amended: the normalization bounds are preserved by `sendQuarterFrame`,
`start`, `stop`, and `setPosition` under its documented precondition; they
are preserved by `setFrameRate` with a valid rate only under the extra
condition that the current frames value is below the new rate's frame
count. -/
theorem c4_normalization_invariant (st : MTCGenerator) (h : Inv st) :
    Inv (tickState st) ∧
    Inv (start st).1 ∧
    Inv (stop st).1 ∧
    (∀ r, RateValid r → st.frames < frameCount r →
      setFrameRate st r = Except.ok { st with frameRate := r } ∧
        Inv { st with frameRate := r }) ∧
    (∀ h' m' s' f', h' < 24 → m' < 60 → s' < 60 → f' < frameCount st.frameRate →
      Inv (setPosition st h' m' s' f').1) := by
  obtain ⟨hh, hm, hs, hf, hqlt, hr⟩ := h
  refine ⟨?_, ?_, ?_, ?_, ?_⟩
  · by_cases h7 : st.quarterFrame = 7
    · rw [tickState_wrap st h7]
      exact Inv_advanceFrame _ ⟨hh, hm, hs, hf, by show (0 : ℕ) < 8; omega, hr⟩
    · rw [tickState_step st st.quarterFrame rfl (by omega)]
      exact ⟨hh, hm, hs, hf, by show st.quarterFrame + 1 < 8; omega, hr⟩
  · cases hrun : st.running
    · simp only [start, hrun, Bool.false_eq_true, if_false]
      exact ⟨hh, hm, hs, hf, hqlt, hr⟩
    · simp only [start, hrun, if_true]
      exact ⟨hh, hm, hs, hf, hqlt, hr⟩
  · cases hrun : st.running
    · simp only [stop, hrun, Bool.false_eq_true, if_false]
      exact ⟨hh, hm, hs, hf, hqlt, hr⟩
    · simp only [stop, hrun, if_true]
      exact ⟨hh, hm, hs, hf, hqlt, hr⟩
  · intro r hrv hflt
    have hcond : r = 24 ∨ r = 25 ∨ r = 2997 / 100 ∨ r = 30 := hrv
    refine ⟨?_, ⟨hh, hm, hs, hflt, hqlt, hrv⟩⟩
    unfold setFrameRate
    rw [if_pos hcond]
  · intro h' m' s' f' hh' hm' hs' hf'
    exact ⟨hh', hm', hs', hf', by show (0 : ℕ) < 8; omega, hr⟩

/-- Witness for the amended C4 at the initial state: one tick preserves the
bounds. -/
theorem c4_normalization_invariant_witness : Inv (tickState initState) := by
  have h0 : Inv initState := by
    refine ⟨by decide, by decide, by decide, ?_, by decide, Or.inr (Or.inr (Or.inr rfl))⟩
    show (0 : ℕ) < frameCount 30
    rw [frameCount_30]
    omega
  exact (c4_normalization_invariant initState h0).1

lemma fullFrameBytes_update_running (s : MTCGenerator) (b : Bool) :
    fullFrameBytes { s with running := b } = fullFrameBytes s := rfl

lemma start_of_stopped (s : MTCGenerator) (h : s.running = false) :
    start s =
      ({ s with running := true, timer := some ⌊(1000 : ℚ) / (s.frameRate * 4)⌋ },
        [MidiEvent.sendMessage (fullFrameBytes s)]) := by
  simp [start, h, sendFullFrame, fullFrameBytes_update_running]

/-- C5: on a stopped session, `start` emits exactly one full-frame message,
marks the session running, and schedules one periodic tick at the floor of
1000 / (frameRate * 4) milliseconds; a second `start` while running is a
no-op, so two consecutive calls produce one emission and one tick loop. -/
theorem c5_start_idempotent (st : MTCGenerator) (h : st.running = false) :
    (start st).2 = [MidiEvent.sendMessage (fullFrameBytes st)] ∧
    (start st).1.running = true ∧
    (start st).1.timer = some ⌊(1000 : ℚ) / (st.frameRate * 4)⌋ ∧
    (start st).1.hours = st.hours ∧ (start st).1.minutes = st.minutes ∧
    (start st).1.seconds = st.seconds ∧ (start st).1.frames = st.frames ∧
    (start st).1.quarterFrame = st.quarterFrame ∧
    (start st).1.frameRate = st.frameRate ∧
    start (start st).1 = ((start st).1, []) := by
  rw [start_of_stopped st h]
  refine ⟨rfl, rfl, rfl, rfl, rfl, rfl, rfl, rfl, rfl, ?_⟩
  simp [start]

/-- Witness for C5 at the freshly constructed state: starting emits the full
frame, sets an 8 ms tick (30 fps), and a second start is a no-op. -/
theorem c5_start_idempotent_witness :
    (start initState).2 = [MidiEvent.sendMessage (fullFrameBytes initState)] ∧
    (start initState).1.timer = some 8 ∧
    start (start initState).1 = ((start initState).1, []) := by
  have h := c5_start_idempotent initState rfl
  refine ⟨h.1, ?_, h.2.2.2.2.2.2.2.2.2⟩
  rw [h.2.2.1]
  norm_num [initState, Int.floor_eq_iff]

/-- C6: `setPosition h m s f` overwrites the timecode with (h, m, s, f),
resets the cursor to 0, changes nothing else, and emits exactly one
full-frame message at the new position when running and nothing when
stopped. -/
theorem c6_setPosition (st : MTCGenerator) (h m sec f : ℕ) :
    (setPosition st h m sec f).1 =
      { st with hours := h, minutes := m, seconds := sec, frames := f, quarterFrame := 0 } ∧
    (setPosition st h m sec f).2 =
      (if st.running then
        [MidiEvent.sendMessage (fullFrameBytes (setPosition st h m sec f).1)]
      else []) := by
  exact ⟨rfl, rfl⟩

/-- C7: `stop` is a no-op when not running, otherwise clears the running flag
and cancels the timer; in both cases the timecode, cursor and frame rate
are unchanged and the session ends up stopped, and a subsequent `start`
re-announces the previously held timecode with a fresh full frame. -/
theorem c7_stop_resume (st : MTCGenerator) :
    (st.running = false → stop st = (st, [])) ∧
    (st.running = true → stop st = ({ st with running := false, timer := none }, [])) ∧
    (stop st).1.hours = st.hours ∧ (stop st).1.minutes = st.minutes ∧
    (stop st).1.seconds = st.seconds ∧ (stop st).1.frames = st.frames ∧
    (stop st).1.quarterFrame = st.quarterFrame ∧
    (stop st).1.frameRate = st.frameRate ∧
    (stop st).1.running = false ∧
    (start (stop st).1).2 = [MidiEvent.sendMessage (fullFrameBytes st)] ∧
    timecodeOf (start (stop st).1).1 = timecodeOf st := by
  cases hrun : st.running
  · have hstop : stop st = (st, []) := by simp [stop, hrun]
    rw [hstop]
    refine ⟨fun _ => rfl, fun hx => Bool.noConfusion hx,
      rfl, rfl, rfl, rfl, rfl, rfl, hrun, ?_, ?_⟩
    · rw [start_of_stopped st hrun]
    · rw [start_of_stopped st hrun]
      rfl
  · have hstop : stop st = ({ st with running := false, timer := none }, []) := by
      simp [stop, hrun]
    rw [hstop]
    refine ⟨fun hx => Bool.noConfusion hx, fun _ => rfl,
      rfl, rfl, rfl, rfl, rfl, rfl, rfl, ?_, ?_⟩
    · rw [start_of_stopped _ rfl]
      rfl
    · rw [start_of_stopped _ rfl]
      rfl

/-- Witness for C7 on a running session at 1:2:3:4: stop cancels the timer
and keeps the timecode, and restarting re-emits the full frame for it. -/
theorem c7_stop_resume_witness :
    stop (⟨true, 30, 1, 2, 3, 4, 5, some 8⟩ : MTCGenerator) =
      (⟨false, 30, 1, 2, 3, 4, 5, none⟩, []) ∧
    (start (stop (⟨true, 30, 1, 2, 3, 4, 5, some 8⟩ : MTCGenerator)).1).2 =
      [MidiEvent.sendMessage (fullFrameBytes ⟨true, 30, 1, 2, 3, 4, 5, some 8⟩)] := by
  have h := c7_stop_resume ⟨true, 30, 1, 2, 3, 4, 5, some 8⟩
  exact ⟨h.2.1 rfl, h.2.2.2.2.2.2.2.2.2.1⟩

/-- C8: `setFrameRate` succeeds exactly on 24, 25, 29.97 and 30, replacing
only the frame rate; on any other input it fails with InvalidFrameRate and
produces no new state. -/
theorem c8_setFrameRate_validation (st : MTCGenerator) (r : ℚ) :
    (RateValid r → setFrameRate st r = Except.ok { st with frameRate := r }) ∧
    (¬ RateValid r → setFrameRate st r = Except.error MTCError.invalidFrameRate) := by
  constructor
  · intro h
    have hcond : r = 24 ∨ r = 25 ∨ r = 2997 / 100 ∨ r = 30 := h
    unfold setFrameRate
    rw [if_pos hcond]
  · intro h
    have hcond : ¬ (r = 24 ∨ r = 25 ∨ r = 2997 / 100 ∨ r = 30) := h
    unfold setFrameRate
    rw [if_neg hcond]

/-- Witness for C8: 29.97 succeeds and 28 fails with InvalidFrameRate. -/
theorem c8_setFrameRate_validation_witness :
    setFrameRate initState (2997 / 100) =
      Except.ok ⟨false, 2997 / 100, 0, 0, 0, 0, 0, none⟩ ∧
    setFrameRate initState 28 = Except.error MTCError.invalidFrameRate :=
  ⟨(c8_setFrameRate_validation initState (2997 / 100)).1 (Or.inr (Or.inr (Or.inl rfl))),
    (c8_setFrameRate_validation initState 28).2 (by norm_num [RateValid])⟩

/-- Counterexample to C9 as stated: after two `close` calls on a fresh
generator the port has been released twice, not exactly once. -/
theorem c9_counterexample :
    ¬ releaseCount ((close initState).2 ++ (close (close initState).1).2) = 1 := by
  simp [close, stop, initState, releaseCount, isClosePort]

/-- C9 amended: each `close` call stops the session and then releases the
MIDI sink exactly once per call; the release is unconditional, so n calls
release the sink n times rather than once in total. -/
theorem c9_close_releases_each_time (st : MTCGenerator) :
    close st = ((stop st).1, [MidiEvent.closePort]) ∧
    releaseCount (close st).2 = 1 ∧
    (close st).1.running = false := by
  cases hrun : st.running
  · have hstop : stop st = (st, []) := by simp [stop, hrun]
    exact ⟨by simp [close, hstop], by simp [close, hstop, releaseCount, isClosePort],
      by simp [close, hstop, hrun]⟩
  · have hstop : stop st = ({ st with running := false, timer := none }, []) := by
      simp [stop, hrun]
    exact ⟨by simp [close, hstop], by simp [close, hstop, releaseCount, isClosePort],
      by simp [close, hstop]⟩

/-- C10: the state a freshly constructed generator is in once the MIDI port
is open: stopped, frame rate 30 (a default the spec never states), timecode
00:00:00:00, cursor 0, and no scheduled timer. -/
theorem c10_initial_state :
    initState.running = false ∧ initState.frameRate = 30 ∧ initState.hours = 0 ∧
    initState.minutes = 0 ∧ initState.seconds = 0 ∧ initState.frames = 0 ∧
    initState.quarterFrame = 0 ∧ initState.timer = none :=
  ⟨rfl, rfl, rfl, rfl, rfl, rfl, rfl, rfl⟩

end MTC
